import Mathlib

/-!
Verification of the WebP encoder component (src/codecs/webp/encoder.rs):
the quality type with its clamping constructors, the color-layout
resolution, the dispatch to the external libwebp compressor, the
empty-output validation, and the write to the output sink.

The compressor, the output sink and the crate-level error/color types are
external collaborators of this file's component; they are modelled from
the spec as opaque capabilities (functions) and plain sum types.
-/

namespace WebPEnc

/-- Modelled from the spec: the crate-level color-type enumeration is not
under src/; the spec describes it as a larger enumeration of color tags of
which only `Rgb8` (3 bytes per pixel) and `Rgba8` (4 bytes per pixel) are
supported by this component. The remaining tags stand for the other
variants of the crate's enumeration. -/
inductive ColorType
  | L8
  | La8
  | Rgb8
  | Rgba8
  | L16
  | La16
  | Rgb16
  | Rgba16
  | Rgb32F
  | Rgba32F
deriving DecidableEq, Repr

/-- libwebp pixel layout: 3-byte RGB or 4-byte RGBA per pixel. -/
inductive PixelLayout
  | Rgb
  | Rgba
deriving DecidableEq, Repr

/-- The private two-variant quality enum from encoder.rs. The `u8` payload
of `Lossy` is modelled as a `Nat` (in the code it is always in 0..=255). -/
inductive Quality
  | Lossless
  | Lossy (level : Nat)
deriving DecidableEq, Repr

/-- `pub struct WebPQuality(Quality)` — a single-field wrapper; the Rust
tuple field `.0` is named `q` here. -/
structure WebPQuality where
  q : Quality
deriving DecidableEq, Repr

namespace WebPQuality

/-- `pub const MIN: u8 = 0` -/
def MIN : Nat := 0

/-- `pub const MAX: u8 = 100` -/
def MAX : Nat := 100

/-- `pub const DEFAULT: u8 = 80` -/
def DEFAULT : Nat := 80

/-- `pub fn lossless() -> Self { Self(Quality::Lossless) }` -/
def lossless : WebPQuality := ⟨Quality.Lossless⟩

/-- Rust's `u8::clamp(self, min, max)`: below `lo` becomes `lo`, above `hi`
becomes `hi`, otherwise unchanged. -/
def clampU8 (x lo hi : Nat) : Nat :=
  if x < lo then lo else if hi < x then hi else x

/-- `pub fn lossy(quality: u8) -> Self \x7b Self(Quality::Lossy(quality.clamp(Self::MIN, Self::MAX))) \x7d` -/
def lossy (quality : Nat) : WebPQuality :=
  ⟨Quality.Lossy (clampU8 quality MIN MAX)⟩

/-- `impl Default for WebPQuality`: `Self::lossy(WebPQuality::DEFAULT)`. -/
def default : WebPQuality := lossy DEFAULT

end WebPQuality

/-- Modelled from the spec: the sink's own I/O error channel (std::io::Error),
opaque to this component; only its identity matters, so a numeric payload. -/
structure IoError where
  code : Nat
deriving DecidableEq, Repr

/-- Modelled from the spec: the crate's format hint attached to encoding
errors; only the WebP case is used by this component. -/
inductive ImageFormatHint
  | WebP
deriving DecidableEq, Repr

/-- Modelled from the spec: the crate error type (crate::error, not under
src/). The spec's error taxonomy distinguishes an encoding failure carrying
a descriptive diagnostic from a propagated sink I/O failure; they are
distinct variants of this sum type (the unsupported-color case is an abrupt
termination in the code, see EncodeOutcome.panicked). -/
inductive ImageError
  | Encoding (format : ImageFormatHint) (msg : String)
  | IoError (e : IoError)
deriving DecidableEq, Repr

/-- Result of one `write_all` call on the sink: either the whole buffer was
written, or some prefix was written and the sink reported its own error. -/
inductive SinkWriteResult
  | success
  | failure (written : List Nat) (err : IoError)
deriving Repr

/-- Modelled from the spec: the output sink (any `W: Write`); its observable
behavior on one `write_all` of a byte buffer. -/
structure SinkModel where
  writeAll : List Nat → SinkWriteResult

/-- Modelled from the spec: the external libwebp compressor capability,
a black box `encode(pixels, layout, width, height, quality) -> bytes`.
`libwebp::Encoder::new(data, layout, width, height)` followed by
`encode_lossless()` or `encode(quality as f32)`; the `u8 -> f32` cast is
exact and injective, so the lossy level is modelled as the `Nat` itself.
Being Lean functions, both entry points are deterministic, which is the
spec's stated assumption about the compressor. -/
structure Compressor where
  encodeLossless : List Nat → PixelLayout → Nat → Nat → List Nat
  encodeLossy : List Nat → PixelLayout → Nat → Nat → Nat → List Nat

/-- `pub struct WebPEncoder<W> \x7b inner: W, quality: WebPQuality \x7d` -/
structure WebPEncoder where
  inner : SinkModel
  quality : WebPQuality

/-- How one `encode` call ends: the `unimplemented!` panic on an
unsupported color type, an `Err(ImageError)`, or `Ok(())`. -/
inductive EncodeOutcome
  | panicked (msg : String)
  | err (e : ImageError)
  | ok
deriving DecidableEq, Repr

/-- Observable effect of one `encode` call: how it ended, and the bytes the
sink actually received (in order). -/
structure EncodeResult where
  outcome : EncodeOutcome
  written : List Nat
deriving DecidableEq, Repr

/-- The `match color` at the top of `encode`: `Rgb8 => PixelLayout::Rgb`,
`Rgba8 => PixelLayout::Rgba`, `_ => unimplemented!(...)` (the panic arm is
`none`). -/
def colorLayout : ColorType → Option PixelLayout
  | ColorType.Rgb8 => some PixelLayout.Rgb
  | ColorType.Rgba8 => some PixelLayout.Rgba
  | _ => none

/-- The `match self.quality.0` dispatch in `encode`: the lossless entry
point, or the lossy entry point with the stored level. -/
def compressDispatch (q : WebPQuality) (comp : Compressor) (data : List Nat)
    (layout : PixelLayout) (width height : Nat) : List Nat :=
  match q.q with
  | Quality.Lossless => comp.encodeLossless data layout width height
  | Quality.Lossy level => comp.encodeLossy data layout width height level

/-- Steps 3 and 4 of `encode`: `if encoded.is_empty()` return the encoding
error with the message from the source; otherwise `self.inner.write_all(&encoded)?`
and `Ok(())`. The `?` converts the sink's error into `ImageError::IoError`. -/
def validateAndWrite (sink : SinkModel) (encoded : List Nat) : EncodeResult :=
  if encoded = [] then
    { outcome := EncodeOutcome.err
        (ImageError.Encoding ImageFormatHint.WebP "encoding failed, output empty"),
      written := [] }
  else
    match sink.writeAll encoded with
    | SinkWriteResult.success =>
        { outcome := EncodeOutcome.ok, written := encoded }
    | SinkWriteResult.failure w e =>
        { outcome := EncodeOutcome.err (ImageError.IoError e), written := w }

/-- `pub fn encode(mut self, data, width, height, color) -> ImageResult<()>`:
resolve the layout (panicking on unsupported color types), call the
compressor per the quality variant, validate non-emptiness, write to the
sink. The compressor capability is an explicit argument (it is an external
collaborator, a linked C library in the code). -/
def WebPEncoder.encode (self : WebPEncoder) (comp : Compressor) (data : List Nat)
    (width height : Nat) (color : ColorType) : EncodeResult :=
  match colorLayout color with
  | none =>
      { outcome := EncodeOutcome.panicked "not implemented: Color type not yet supported",
        written := [] }
  | some layout =>
      validateAndWrite self.inner
        (compressDispatch self.quality comp data layout width height)

/-- `impl ImageEncoder for WebPEncoder<W>`: `write_image` forwards every
argument to `encode`. -/
def WebPEncoder.write_image (self : WebPEncoder) (comp : Compressor) (buf : List Nat)
    (width height : Nat) (color_type : ColorType) : EncodeResult :=
  self.encode comp buf width height color_type

/-- `pub fn new_with_quality(w: W, quality: WebPQuality) -> Self` -/
def WebPEncoder.new_with_quality (w : SinkModel) (quality : WebPQuality) : WebPEncoder :=
  { inner := w, quality := quality }

/-- `pub fn new(w: W) -> Self`: default quality. -/
def WebPEncoder.new (w : SinkModel) : WebPEncoder :=
  WebPEncoder.new_with_quality w WebPQuality.default

end WebPEnc

namespace WebPEnc

/-- C1: for every u8 level, `WebPQuality::lossy(level)` constructs a Lossy
variant whose stored level is `max(0, min(100, level))`; in-range values
pass through, values above 100 become 100, and the constructor is total. -/
theorem lossy_stores_clamped (level : Nat) (h : level < 256) :
    (WebPQuality.lossy level).q = Quality.Lossy (max 0 (min 100 level)) := by
  have hc : WebPQuality.clampU8 level WebPQuality.MIN WebPQuality.MAX
      = max 0 (min 100 level) := by
    unfold WebPQuality.clampU8 WebPQuality.MIN WebPQuality.MAX
    split_ifs <;> omega
  simp [WebPQuality.lossy, hc]

/-- Witness for C1 at the out-of-range level 200: it is a valid u8 and the
stored level is the clamp of 200, namely 100. -/
theorem lossy_stores_clamped_w :
    (WebPQuality.lossy 200).q = Quality.Lossy (max 0 (min 100 200)) :=
  lossy_stores_clamped 200 (by decide)

/-- C2: for every color type other than Rgb8 and Rgba8, and all pixel data,
widths, heights, sinks, qualities and compressors, `encode` terminates
abnormally (the `unimplemented!` panic) and writes no bytes to the sink. -/
theorem encode_unsupported_color (sink : SinkModel) (q : WebPQuality)
    (comp : Compressor) (data : List Nat) (width height : Nat) (color : ColorType)
    (h1 : color ≠ ColorType.Rgb8) (h2 : color ≠ ColorType.Rgba8) :
    ((WebPEncoder.new_with_quality sink q).encode comp data width height color).outcome
        = EncodeOutcome.panicked "not implemented: Color type not yet supported"
    ∧ ((WebPEncoder.new_with_quality sink q).encode comp data width height color).written
        = [] := by
  have hl : colorLayout color = none := by
    cases color <;> simp_all [colorLayout]
  simp [WebPEncoder.encode, WebPEncoder.new_with_quality, hl]

/-- Witness for C2 at the concrete unsupported color type L8, with a
concrete sink, compressor, buffer and dimensions. -/
theorem encode_unsupported_color_w :
    (ColorType.L8 ≠ ColorType.Rgb8 ∧ ColorType.L8 ≠ ColorType.Rgba8)
    ∧ (((WebPEncoder.new_with_quality ⟨fun _ => SinkWriteResult.success⟩
          WebPQuality.lossless).encode
          ⟨fun d _ _ _ => d, fun d _ _ _ _ => d⟩ [1, 2, 3] 1 1 ColorType.L8).outcome
        = EncodeOutcome.panicked "not implemented: Color type not yet supported"
      ∧ ((WebPEncoder.new_with_quality ⟨fun _ => SinkWriteResult.success⟩
          WebPQuality.lossless).encode
          ⟨fun d _ _ _ => d, fun d _ _ _ _ => d⟩ [1, 2, 3] 1 1 ColorType.L8).written
        = []) :=
  ⟨⟨by decide, by decide⟩,
    encode_unsupported_color ⟨fun _ => SinkWriteResult.success⟩ WebPQuality.lossless
      ⟨fun d _ _ _ => d, fun d _ _ _ _ => d⟩ [1, 2, 3] 1 1 ColorType.L8
      (by decide) (by decide)⟩

/-- C3: whenever the color type is supported (so the compressor is actually
invoked) and the compressor returns an empty buffer, `encode` returns the
encoding error carrying the diagnostic from the source and writes no bytes
to the sink. -/
theorem encode_empty_output (sink : SinkModel) (q : WebPQuality)
    (comp : Compressor) (data : List Nat) (width height : Nat)
    (color : ColorType) (layout : PixelLayout)
    (hl : colorLayout color = some layout)
    (he : compressDispatch q comp data layout width height = []) :
    ((WebPEncoder.new_with_quality sink q).encode comp data width height color).outcome
        = EncodeOutcome.err (ImageError.Encoding ImageFormatHint.WebP
            "encoding failed, output empty")
    ∧ ((WebPEncoder.new_with_quality sink q).encode comp data width height color).written
        = [] := by
  simp [WebPEncoder.encode, WebPEncoder.new_with_quality, hl, validateAndWrite, he]

/-- Witness for C3: a compressor that always returns the empty buffer, on a
concrete Rgb8 input. -/
theorem encode_empty_output_w :
    (colorLayout ColorType.Rgb8 = some PixelLayout.Rgb
      ∧ compressDispatch WebPQuality.lossless ⟨fun _ _ _ _ => [], fun _ _ _ _ _ => []⟩
          [1, 2, 3] PixelLayout.Rgb 1 1 = [])
    ∧ (((WebPEncoder.new_with_quality ⟨fun _ => SinkWriteResult.success⟩
          WebPQuality.lossless).encode ⟨fun _ _ _ _ => [], fun _ _ _ _ _ => []⟩
          [1, 2, 3] 1 1 ColorType.Rgb8).outcome
        = EncodeOutcome.err (ImageError.Encoding ImageFormatHint.WebP
            "encoding failed, output empty")
      ∧ ((WebPEncoder.new_with_quality ⟨fun _ => SinkWriteResult.success⟩
          WebPQuality.lossless).encode ⟨fun _ _ _ _ => [], fun _ _ _ _ _ => []⟩
          [1, 2, 3] 1 1 ColorType.Rgb8).written = []) :=
  ⟨⟨rfl, rfl⟩,
    encode_empty_output ⟨fun _ => SinkWriteResult.success⟩ WebPQuality.lossless
      ⟨fun _ _ _ _ => [], fun _ _ _ _ _ => []⟩ [1, 2, 3] 1 1 ColorType.Rgb8
      PixelLayout.Rgb rfl rfl⟩

end WebPEnc

namespace WebPEnc

/-- C4: whenever `encode` returns success, the sink received exactly the
compressor's output buffer for the resolved layout — the whole buffer, in
order, once; nothing added, dropped, duplicated or reordered. -/
theorem encode_success_writes_exactly (sink : SinkModel) (q : WebPQuality)
    (comp : Compressor) (data : List Nat) (width height : Nat) (color : ColorType)
    (hok : ((WebPEncoder.new_with_quality sink q).encode comp data width height color).outcome
        = EncodeOutcome.ok) :
    ∃ layout, colorLayout color = some layout
      ∧ ((WebPEncoder.new_with_quality sink q).encode comp data width height color).written
          = compressDispatch q comp data layout width height := by
  cases hl : colorLayout color with
  | none =>
      simp [WebPEncoder.encode, WebPEncoder.new_with_quality, hl] at hok
  | some layout =>
      refine ⟨layout, rfl, ?_⟩
      simp only [WebPEncoder.encode, WebPEncoder.new_with_quality, hl] at hok ⊢
      by_cases hemp : compressDispatch q comp data layout width height = []
      · simp [validateAndWrite, hemp] at hok
      · cases hw : SinkModel.writeAll sink (compressDispatch q comp data layout width height) with
        | success => simp [validateAndWrite, hemp, hw]
        | failure w e => simp [validateAndWrite, hemp, hw] at hok

/-- Witness for C4: a compressor producing the concrete buffer [5, 6, 7]
and an always-succeeding sink; the successful encode wrote exactly that
buffer. -/
theorem encode_success_writes_exactly_w :
    ((WebPEncoder.new_with_quality ⟨fun _ => SinkWriteResult.success⟩
        WebPQuality.lossless).encode ⟨fun _ _ _ _ => [5, 6, 7], fun _ _ _ _ _ => []⟩
        [1, 2, 3] 1 1 ColorType.Rgb8).outcome = EncodeOutcome.ok
    ∧ ∃ layout, colorLayout ColorType.Rgb8 = some layout
      ∧ ((WebPEncoder.new_with_quality ⟨fun _ => SinkWriteResult.success⟩
            WebPQuality.lossless).encode ⟨fun _ _ _ _ => [5, 6, 7], fun _ _ _ _ _ => []⟩
            [1, 2, 3] 1 1 ColorType.Rgb8).written
          = compressDispatch WebPQuality.lossless
              ⟨fun _ _ _ _ => [5, 6, 7], fun _ _ _ _ _ => []⟩ [1, 2, 3] layout 1 1 :=
  ⟨rfl,
    encode_success_writes_exactly ⟨fun _ => SinkWriteResult.success⟩
      WebPQuality.lossless ⟨fun _ _ _ _ => [5, 6, 7], fun _ _ _ _ _ => []⟩
      [1, 2, 3] 1 1 ColorType.Rgb8 rfl⟩

/-- C5: `encode` invokes the compressor exactly once with the caller's
pixels, width and height unchanged and the layout resolved from the color
type (Rgb8 to RGB, Rgba8 to RGBA), going through the lossless entry point
when the quality is Lossless and through the lossy entry point with the
stored level when it is Lossy(level); the rest of `encode` consumes exactly
that call's result. Stated over both entry points and both supported
colors. -/
theorem encode_dispatch_exact (sink : SinkModel) (comp : Compressor)
    (data : List Nat) (width height level : Nat) :
    ((WebPEncoder.mk sink ⟨Quality.Lossless⟩).encode comp data width height ColorType.Rgb8
        = validateAndWrite sink (comp.encodeLossless data PixelLayout.Rgb width height))
    ∧ ((WebPEncoder.mk sink ⟨Quality.Lossless⟩).encode comp data width height ColorType.Rgba8
        = validateAndWrite sink (comp.encodeLossless data PixelLayout.Rgba width height))
    ∧ ((WebPEncoder.mk sink ⟨Quality.Lossy level⟩).encode comp data width height ColorType.Rgb8
        = validateAndWrite sink (comp.encodeLossy data PixelLayout.Rgb width height level))
    ∧ ((WebPEncoder.mk sink ⟨Quality.Lossy level⟩).encode comp data width height ColorType.Rgba8
        = validateAndWrite sink (comp.encodeLossy data PixelLayout.Rgba width height level)) :=
  ⟨rfl, rfl, rfl, rfl⟩

/-- C6: when the dispatched buffer is nonempty (so validation passed) and
the sink's write of it fails with the sink's own error, `encode` surfaces
exactly that error wrapped as the I/O variant — a value distinct from every
encoding-error value and from every abnormal-termination outcome, so the
caller can tell the three conditions apart; nothing is swallowed. -/
theorem encode_write_failure_propagates (sink : SinkModel) (q : WebPQuality)
    (comp : Compressor) (data : List Nat) (width height : Nat)
    (color : ColorType) (layout : PixelLayout) (wpart : List Nat) (e : IoError)
    (hl : colorLayout color = some layout)
    (hne : compressDispatch q comp data layout width height ≠ [])
    (hw : sink.writeAll (compressDispatch q comp data layout width height)
        = SinkWriteResult.failure wpart e) :
    ((WebPEncoder.new_with_quality sink q).encode comp data width height color).outcome
        = EncodeOutcome.err (ImageError.IoError e)
    ∧ (∀ f m, ImageError.IoError e ≠ ImageError.Encoding f m)
    ∧ (∀ m, EncodeOutcome.err (ImageError.IoError e) ≠ EncodeOutcome.panicked m) := by
  refine ⟨?_, fun f m => by simp, fun m => by simp⟩
  simp [WebPEncoder.encode, WebPEncoder.new_with_quality, hl, validateAndWrite, hne, hw]

/-- Witness for C6: a sink that fails every write with error code 42, after
a compressor producing the nonempty buffer [9]. -/
theorem encode_write_failure_propagates_w :
    (colorLayout ColorType.Rgba8 = some PixelLayout.Rgba
      ∧ compressDispatch ⟨Quality.Lossy 50⟩ ⟨fun _ _ _ _ => [], fun _ _ _ _ _ => [9]⟩
          [0, 0, 0, 0] PixelLayout.Rgba 1 1 ≠ []
      ∧ SinkModel.writeAll ⟨fun _ => SinkWriteResult.failure [] ⟨42⟩⟩
          (compressDispatch ⟨Quality.Lossy 50⟩ ⟨fun _ _ _ _ => [], fun _ _ _ _ _ => [9]⟩
            [0, 0, 0, 0] PixelLayout.Rgba 1 1)
          = SinkWriteResult.failure [] ⟨42⟩)
    ∧ ((WebPEncoder.new_with_quality ⟨fun _ => SinkWriteResult.failure [] ⟨42⟩⟩
          ⟨Quality.Lossy 50⟩).encode ⟨fun _ _ _ _ => [], fun _ _ _ _ _ => [9]⟩
          [0, 0, 0, 0] 1 1 ColorType.Rgba8).outcome
        = EncodeOutcome.err (ImageError.IoError ⟨42⟩)
      ∧ (∀ f m, ImageError.IoError ⟨42⟩ ≠ ImageError.Encoding f m)
      ∧ (∀ m, EncodeOutcome.err (ImageError.IoError ⟨42⟩) ≠ EncodeOutcome.panicked m) :=
  ⟨⟨rfl, by simp [compressDispatch], rfl⟩,
    encode_write_failure_propagates ⟨fun _ => SinkWriteResult.failure [] ⟨42⟩⟩
      ⟨Quality.Lossy 50⟩ ⟨fun _ _ _ _ => [], fun _ _ _ _ _ => [9]⟩
      [0, 0, 0, 0] 1 1 ColorType.Rgba8 PixelLayout.Rgba [] ⟨42⟩
      rfl (by simp [compressDispatch]) rfl⟩

end WebPEnc

namespace WebPEnc

/-- C7: `WebPQuality::default()` equals `WebPQuality::lossy(80)` as a value,
and every `encode` call behaves identically under either quality. -/
theorem default_eq_lossy_80 :
    WebPQuality.default = WebPQuality.lossy 80
    ∧ ∀ (sink : SinkModel) (comp : Compressor) (data : List Nat)
        (width height : Nat) (color : ColorType),
        (WebPEncoder.new_with_quality sink WebPQuality.default).encode
            comp data width height color
          = (WebPEncoder.new_with_quality sink (WebPQuality.lossy 80)).encode
              comp data width height color :=
  ⟨rfl, fun _ _ _ _ _ _ => rfl⟩

/-- C8: two encode calls with identical arguments on two independently
constructed encoder instances, over sinks with identical write behavior,
yield identical results — in particular byte-identical sink output. The
compressor is a Lean function, so its determinism is the model's standing
assumption, exactly as the spec assumes it. -/
theorem encode_idempotent (s1 s2 : SinkModel) (q : WebPQuality) (comp : Compressor)
    (data : List Nat) (width height : Nat) (color : ColorType)
    (hs : s1.writeAll = s2.writeAll) :
    (WebPEncoder.new_with_quality s1 q).encode comp data width height color
      = (WebPEncoder.new_with_quality s2 q).encode comp data width height color := by
  have h : s1 = s2 := by
    cases s1
    cases s2
    simpa using hs
  rw [h]

/-- Witness for C8: two separately written-down sinks with the same
behavior, a concrete lossy-50 quality, compressor, buffer and dimensions. -/
theorem encode_idempotent_w :
    SinkModel.writeAll ⟨fun _ => SinkWriteResult.success⟩
        = SinkModel.writeAll ⟨fun _ => SinkWriteResult.success⟩
    ∧ (WebPEncoder.new_with_quality ⟨fun _ => SinkWriteResult.success⟩
          (WebPQuality.lossy 50)).encode ⟨fun d _ _ _ => d, fun d _ _ _ _ => d⟩
          [1, 2, 3] 1 1 ColorType.Rgb8
        = (WebPEncoder.new_with_quality ⟨fun _ => SinkWriteResult.success⟩
            (WebPQuality.lossy 50)).encode ⟨fun d _ _ _ => d, fun d _ _ _ _ => d⟩
            [1, 2, 3] 1 1 ColorType.Rgb8 :=
  ⟨rfl,
    encode_idempotent ⟨fun _ => SinkWriteResult.success⟩
      ⟨fun _ => SinkWriteResult.success⟩ (WebPQuality.lossy 50)
      ⟨fun d _ _ _ => d, fun d _ _ _ _ => d⟩ [1, 2, 3] 1 1 ColorType.Rgb8 rfl⟩

/-- C10: the `ImageEncoder` trait method `write_image` on a WebPEncoder
returns the same result — outcome and sink output — as calling `encode`
directly with the same arguments, for every encoder, compressor, buffer,
width, height and color type. -/
theorem write_image_eq_encode (e : WebPEncoder) (comp : Compressor)
    (buf : List Nat) (width height : Nat) (color_type : ColorType) :
    e.write_image comp buf width height color_type
      = e.encode comp buf width height color_type :=
  rfl

end WebPEnc
